import Mathlib

/-!
Verification of the Telegram-side setup module (`src/telegram2discord/setup.ts`)
of the TediCross fork: backlog draining (`clearOldMessages`), the startup
promise chain built in `setup`, the installed middleware/endware pipeline, the
`bridgeUpdate` subscription handler, and the installed error handler.

The asynchronous JavaScript code is shallowly embedded as follows: the Telegram
backend serving `getUpdates` is a script of successive batches; the startup
promise chain is rendered as the ordered trace of the actions it performs, with
a parameter for each external outcome that could influence it; detached
background tasks (the command-verification timer) are modelled by their own
functions, separate from the main trace.
-/

namespace TediCross

/-- A batch of Telegram updates as returned by one `getUpdates` call, represented
by the `update_id` of each update, in the order the call returns them. -/
abbrev Batch := List Int

/-- Polling timeout passed to `getUpdates` by `clearOldMessages` (setup.ts line 35). -/
def fetchTimeout : Nat := 0

/-- Batch size limit passed to `getUpdates` by `clearOldMessages` (setup.ts line 36). -/
def fetchLimit : Nat := 100

/-- Default offset used when `clearOldMessages` is called without an offset
(setup.ts line 34, call site line 94). -/
def defaultOffset : Int := -1

/-- Offsets at which `clearOldMessages` issues `getUpdates` calls, in order.
The Telegram backend is modelled by a script listing the successive batches it
serves; an exhausted script means the backend has no further pending updates and
serves an empty batch.  Mirrors setup.ts lines 34-53: fetch a batch at the
current offset; if the batch is empty (`R.isEmpty`) resolve; otherwise recurse
at `R.last(batch).update_id + 1`. -/
def drainCalls : List Batch → Int → List Int
  | [], offset => [offset]
  | batch :: rest, offset =>
    match batch.getLast? with
    | none => [offset]
    | some lastId => offset :: drainCalls rest (lastId + 1)

/-- A Telegram bot command as registered via `setMyCommands` (setup.ts lines 100-109). -/
structure BotCommand where
  command : String
  description : String
deriving DecidableEq, Repr

/-- The command set registered during startup (setup.ts lines 100-109). -/
def myCommands : List BotCommand :=
  [{ command := "chatinfo", description := "Get info about the chat" },
   { command := "threadinfo", description := "Get info about the thread" }]

/-- Delay in milliseconds before the detached command-verification callback runs
(setup.ts line 121). -/
def verificationDelayMs : Nat := 5000

/-- Observable outcome of one run of the detached command-verification callback
(setup.ts lines 114-120): which command list it logged, and the error message it
threw, if any. -/
structure CheckRun where
  loggedCommands : List BotCommand
  thrown : Option String
deriving DecidableEq, Repr

/-- The detached command-verification callback (setup.ts lines 115-119) applied
to the command list returned by the `getMyCommands` re-fetch: it logs the fetched
list, then throws when fewer than two commands came back. -/
def commandVerification (fetched : List BotCommand) : CheckRun :=
  { loggedCommands := fetched
    thrown :=
      if fetched.length < 2 then
        some ("Telegram: Expected 2 commands, got " ++ toString fetched.length)
      else none }

/-- The middleware/endware stages of the enrichment pipeline named in setup.ts.
`removeBridgesIgnoringCommands` is listed here because the middleware exists in
the codebase; whether it is installed is recorded by `installedStages`. -/
inductive Stage
  | commandChatinfo
  | commandThreadinfo
  | channelChatInfo
  | addTediCrossObj
  | addMessageObj
  | addMessageId
  | addBridgesToContext
  | informThisIsPrivateBot
  | removeD2TBridges
  | removeBridgesIgnoringCommands
  | removeBridgesIgnoringJoinMessages
  | removeBridgesIgnoringLeaveMessages
  | newChatMembers
  | leftChatMember
  | addFromObj
  | addReplyObj
  | addForwardFrom
  | addTextObj
  | addFileObj
  | addFileLink
  | addPreparedObj
  | handleEdits
  | relayMessage
deriving DecidableEq, Repr

/-- The stages installed on the dispatcher by the ready callback, in source
order (setup.ts lines 173-198).  The line installing
`removeBridgesIgnoringCommands` (line 183) is commented out in the source, so
that stage does not appear. -/
def installedStages : List Stage :=
  [.commandChatinfo, .commandThreadinfo, .channelChatInfo, .addTediCrossObj,
   .addMessageObj, .addMessageId, .addBridgesToContext, .informThisIsPrivateBot,
   .removeD2TBridges, .removeBridgesIgnoringJoinMessages,
   .removeBridgesIgnoringLeaveMessages, .newChatMembers, .leftChatMember,
   .addFromObj, .addReplyObj, .addForwardFrom, .addTextObj, .addFileObj,
   .addFileLink, .addPreparedObj, .handleEdits, .relayMessage]

/-- The two tasks of startup step 1 (setup.ts lines 90-95). -/
inductive StartupTask
  | getMe
  | drainBacklog
  | sleepDelay (ms : Nat)
deriving DecidableEq, Repr

/-- The array of tasks passed to `Promise.all` (setup.ts lines 90-95); the tasks
of this single array are started concurrently.  The second task is chosen by the
`skipOldMessages` setting: drain the backlog when set, otherwise sleep 1000 ms. -/
def startupStep1Tasks (skipOldMessages : Bool) : List StartupTask :=
  [.getMe, if skipOldMessages then .drainBacklog else .sleepDelay 1000]

/-- Observable actions of the startup chain built by `setup`. -/
inductive StartEv
  | subscribeBridgeUpdate
  | getMeCall
  | fetchUpdates (offset : Int)
  | sleepMs (ms : Nat)
  | logBotInfo
  | setMyCommands (cmds : List BotCommand)
  | setAdminRights (forChannels : Bool)
  | assignContext
  | install (s : Stage)
  | installCatch
  | startPolling
deriving DecidableEq, Repr

/-- Whether an action belongs to startup step 1 (the subscription made before
the chain, the identity request, backlog fetches, or the sleep). -/
def StartEv.isStep1 : StartEv → Bool
  | .subscribeBridgeUpdate => true
  | .getMeCall => true
  | .fetchUpdates _ => true
  | .sleepMs _ => true
  | _ => false

/-- The actions performed by one startup step-1 task, given the backend script. -/
def taskEvents (script : List Batch) : StartupTask → List StartEv
  | .getMe => [.getMeCall]
  | .drainBacklog => (drainCalls script defaultOffset).map .fetchUpdates
  | .sleepDelay ms => [.sleepMs ms]

/-- The actions performed synchronously by the ready callback (setup.ts lines
96-207), in source order: log the bot info, start the `setMyCommands` chain,
set both admin-rights templates, assign the global TediCross context, install
every pipeline stage, install the error handler. -/
def readyCallbackTrace : List StartEv :=
  [.logBotInfo, .setMyCommands myCommands, .setAdminRights false,
   .setAdminRights true, .assignContext]
  ++ installedStages.map .install ++ [.installCatch]

/-- The ordered action trace of `setup` (setup.ts lines 84-211): subscribe to
`bridgeUpdate`, run the `Promise.all` step, then — only when `getMe` succeeded —
run the ready callback and finally start polling.  The last parameter is the
command list the detached verification re-fetch will return; it is threaded
through to show the main chain never consumes it (the verification callback is
detached behind `setTimeout` and is never awaited). -/
def setupTrace (skipOldMessages getMeOk : Bool) (script : List Batch)
    (_fetchedCommands : List BotCommand) : List StartEv :=
  [.subscribeBridgeUpdate]
  ++ (startupStep1Tasks skipOldMessages).flatMap (taskEvents script)
  ++ (if getMeOk then readyCallbackTrace ++ [.startPolling] else [])

/-- Errors as thrown by the JavaScript runtime or application code. -/
inductive JsError
  | typeError (msg : String)
  | jsError (msg : String)
deriving DecidableEq, Repr

/-- The global context object assigned to `tgBot.context.TediCross` (setup.ts
lines 161-170).  `β` is the type of the bridge map, `γ` gathers the opaque
collaborator handles stored alongside it (`dcBot`, `settings`, `messageMap`,
`logger`). -/
structure TediCrossCtx (β γ : Type) where
  me : Int
  bridgeMap : β
  handles : γ
  antiInfoSpamSet : List Int
  groupIdMap : List (Int × List Int)

/-- The `bridgeUpdate` subscription handler (setup.ts lines 84-87):
`tgBot.context.TediCross.bridgeMap = newBridgeMap`.  The `TediCross` property is
undefined (`none`) until the ready callback assigns it at line 161; in
JavaScript, setting a property on `undefined` throws a TypeError, so the handler
fails without swapping anything in that case; otherwise it performs the single
whole-field assignment. -/
def bridgeUpdateHandler {β γ : Type} (tediCross : Option (TediCrossCtx β γ))
    (newBridgeMap : β) : Except JsError (Option (TediCrossCtx β γ)) :=
  match tediCross with
  | none => .error (.typeError "Cannot set properties of undefined")
  | some ctx => .ok (some { ctx with bridgeMap := newBridgeMap })

/-- What an installed catch handler does with an error it receives. -/
inductive CatchAction
  | logError (e : JsError)
  | rethrow (e : JsError)
deriving DecidableEq, Repr

/-- The error handler installed via `tgBot.catch` (setup.ts lines 201-207): it
passes the error to the Logger collaborator and does nothing else. -/
def tgCatchHandler (err : JsError) : CatchAction := .logError err

/-- Models the Telegraf dispatch contract for installed handlers (an external
collaborator; spec section 6): events are processed one at a time in arrival
order; an error thrown while processing an event is handed to the installed
catch handler; a `logError` outcome lets processing continue with the next
event, while a `rethrow` outcome aborts processing.  Returns how many events
were processed and the errors routed to the logging collaborator, in order. -/
def dispatchEvents {α : Type} (handler : α → Except JsError Unit)
    (catchH : JsError → CatchAction) : List α → Nat × List JsError
  | [] => (0, [])
  | e :: rest =>
    match handler e with
    | .ok _ =>
      let r := dispatchEvents handler catchH rest
      (r.1 + 1, r.2)
    | .error err =>
      match catchH err with
      | .logError e2 =>
        let r := dispatchEvents handler catchH rest
        (r.1 + 1, e2 :: r.2)
      | .rethrow _ => (1, [])

/-- A full batch of `update_id`s `0, 1, ..., 99`, used as a concrete witness. -/
def batch100 : Batch := (List.range 100).map (fun n => (n : Int))

/-! ## Helper lemmas -/

theorem exists_getLast?_of_ne_nil {b : Batch} (hb : b ≠ []) :
    ∃ l, b.getLast? = some l := by
  cases h : b.getLast? with
  | some l => exact ⟨l, rfl⟩
  | none => exact absurd (List.getLast?_eq_none_iff.mp h) hb

theorem drainCalls_of_forall_ne_nil (script : List Batch) :
    ∀ off : Int, (∀ b ∈ script, b ≠ []) →
      drainCalls script off = off :: script.map (fun b => b.getLast?.getD 0 + 1) := by
  induction script with
  | nil => intro off _; rfl
  | cons b rest ih =>
    intro off h
    obtain ⟨l, hl⟩ := exists_getLast?_of_ne_nil (h b (List.mem_cons_self b rest))
    have hrest := ih (l + 1) (fun x hx => h x (List.mem_cons_of_mem b hx))
    simp [drainCalls, hl, hrest]

theorem drainCalls_stops_at_empty (pre : List Batch) :
    ∀ (rest : List Batch) (off : Int), (∀ b ∈ pre, b ≠ []) →
      drainCalls (pre ++ [] :: rest) off =
        off :: pre.map (fun b => b.getLast?.getD 0 + 1) := by
  induction pre with
  | nil => intro rest off _; rfl
  | cons b pre2 ih =>
    intro rest off h
    obtain ⟨l, hl⟩ := exists_getLast?_of_ne_nil (h b (List.mem_cons_self b pre2))
    have hrest := ih rest (l + 1) (fun x hx => h x (List.mem_cons_of_mem b hx))
    simp [drainCalls, hl, hrest]

theorem mem_taskEvents_isStep1 (script : List Batch) (t : StartupTask) (e : StartEv)
    (he : e ∈ taskEvents script t) : e.isStep1 = true := by
  cases t with
  | getMe =>
    simp [taskEvents] at he
    subst he; rfl
  | drainBacklog =>
    simp only [taskEvents] at he
    rw [List.mem_map] at he
    obtain ⟨off, _, rfl⟩ := he
    rfl
  | sleepDelay ms =>
    simp [taskEvents] at he
    subst he; rfl

theorem mem_setupTrace_false_isStep1 (skip : Bool) (script : List Batch)
    (f : List BotCommand) :
    ∀ e ∈ setupTrace skip false script f, e.isStep1 = true := by
  intro e he
  rcases List.mem_append.mp he with h1 | h2
  · rcases List.mem_append.mp h1 with hs | hf
    · simp at hs
      subst hs; rfl
    · rw [List.mem_flatMap] at hf
      obtain ⟨t, _, he2⟩ := hf
      exact mem_taskEvents_isStep1 script t e he2
  · simp at h2

theorem setupTrace_true_cons (skip : Bool) (script : List Batch)
    (f : List BotCommand) :
    setupTrace skip true script f =
      StartEv.subscribeBridgeUpdate ::
        ((startupStep1Tasks skip).flatMap (taskEvents script)
          ++ (readyCallbackTrace ++ [StartEv.startPolling])) := rfl

/-! ## Claim theorems -/

/-- C1: for a backlog whose fetched batches are all exactly the fetch limit
(100) before a final empty batch, `clearOldMessages` issues exactly (number of
full batches + 1) `getUpdates` calls, the first at the default offset and every
later one at the previous batch's last `update_id` plus 1. -/
theorem clearOldMessages_full_batches (script : List Batch)
    (hfull : ∀ b ∈ script, b.length = fetchLimit) :
    (drainCalls script defaultOffset).length = script.length + 1 ∧
    drainCalls script defaultOffset =
      defaultOffset :: script.map (fun b => b.getLast?.getD 0 + 1) := by
  have hne : ∀ b ∈ script, b ≠ [] := by
    intro b hb hnil
    have := hfull b hb
    rw [hnil] at this
    simp [fetchLimit] at this
  have heq := drainCalls_of_forall_ne_nil script defaultOffset hne
  exact ⟨by rw [heq]; simp, heq⟩

/-- C1 witness: a single full batch of 100 updates yields exactly two fetch
calls, the second at the last update id plus 1. -/
theorem clearOldMessages_full_batches_witness :
    (drainCalls [batch100] defaultOffset).length = 1 + 1 ∧
    drainCalls [batch100] defaultOffset =
      defaultOffset :: [batch100].map (fun b => b.getLast?.getD 0 + 1) :=
  clearOldMessages_full_batches [batch100] (by decide)

/-- C8: backlog draining terminates exactly on an empty batch: if the script
serves only non-empty batches before its first empty batch, draining issues one
fetch per non-empty batch plus the fetch that received the empty batch — the
batches behind the empty one are never fetched; and while every served batch is
non-empty, draining recurses again after each batch. -/
theorem clearOldMessages_termination (pre rest script : List Batch) (off : Int) :
    ((∀ b ∈ pre, b ≠ []) →
      drainCalls (pre ++ [] :: rest) off =
        off :: pre.map (fun b => b.getLast?.getD 0 + 1) ∧
      (drainCalls (pre ++ [] :: rest) off).length = pre.length + 1) ∧
    ((∀ b ∈ script, b ≠ []) →
      (drainCalls script off).length = script.length + 1) := by
  constructor
  · intro h
    have heq := drainCalls_stops_at_empty pre rest off h
    exact ⟨heq, by rw [heq]; simp⟩
  · intro h
    rw [drainCalls_of_forall_ne_nil script off h]
    simp

/-- C8 witness: with script [[5]] followed by an empty batch and two further
batches, draining stops after two fetches; with an all-non-empty script of two
batches, draining issues three fetches. -/
theorem clearOldMessages_termination_witness :
    (drainCalls [[5], [], [9], [10]] 0).length = 1 + 1 ∧
    (drainCalls [[1, 2], [3]] 0).length = 2 + 1 :=
  ⟨((clearOldMessages_termination [[5]] [[9], [10]] [[1, 2], [3]] 0).1
      (by decide)).2,
   (clearOldMessages_termination [[5]] [[9], [10]] [[1, 2], [3]] 0).2
      (by decide)⟩

/-- C2 counterexample: the detached verification check does not only log — when
the re-fetch returns no commands it throws an error; and it does not compare
against what was registered — two commands different from the registered set
produce no flag at all. -/
theorem commandVerification_not_log_only_cex :
    (commandVerification []).thrown = some "Telegram: Expected 2 commands, got 0" ∧
    (commandVerification [{ command := "foo", description := "a" },
                          { command := "bar", description := "b" }]).thrown = none ∧
    [BotCommand.mk "foo" "a", BotCommand.mk "bar" "b"] ≠ myCommands := by
  decide

/-- C2 amended: the verification check runs after a 5-second delay, always logs
the re-fetched command list, and throws (inside the detached background task)
exactly when fewer than two commands came back, without comparing their contents
to what was registered; the check is detached from the ready chain, so for every
outcome of the re-fetch the startup trace — including the start of polling — is
unchanged. -/
theorem commandVerification_detached (fetched f1 f2 : List BotCommand)
    (skip ok : Bool) (script : List Batch) :
    (commandVerification fetched).loggedCommands = fetched ∧
    ((commandVerification fetched).thrown = none ↔ 2 ≤ fetched.length) ∧
    verificationDelayMs = 5000 ∧
    setupTrace skip ok script f1 = setupTrace skip ok script f2 := by
  refine ⟨rfl, ?_, rfl, rfl⟩
  simp only [commandVerification]
  split
  · next h =>
    simp only [reduceCtorEq, false_iff]
    omega
  · next h =>
    simp only [true_iff]
    omega

/-- C3 counterexample: the per-command filtering stage
(`removeBridgesIgnoringCommands`) is not among the installed pipeline stages —
its installation line is commented out in the source. -/
theorem command_filter_stage_missing_cex :
    Stage.removeBridgesIgnoringCommands ∉ installedStages := by decide

/-- C3 amended: the installed pipeline contains no per-command filtering stage;
the direction-based filter (`removeD2TBridges`) is immediately followed by the
membership-change filter stages, which precede the membership endwares and the
content-enrichment stages. -/
theorem pipeline_order_after_direction_filter :
    Stage.removeBridgesIgnoringCommands ∉ installedStages ∧
    installedStages.indexOf Stage.removeD2TBridges + 1 =
      installedStages.indexOf Stage.removeBridgesIgnoringJoinMessages ∧
    installedStages.indexOf Stage.removeBridgesIgnoringJoinMessages <
      installedStages.indexOf Stage.newChatMembers ∧
    installedStages.indexOf Stage.newChatMembers <
      installedStages.indexOf Stage.addFromObj := by decide

/-- C4: when the identity request succeeds, the startup trace ends with the one
polling call; every installed pipeline stage and every action of the concurrent
step-1 tasks (identity request, and backlog fetches or the sleep) happens
strictly before it. -/
theorem polling_starts_after_drain_and_install (skip : Bool) (script : List Batch)
    (f : List BotCommand) :
    ∃ rest, setupTrace skip true script f = rest ++ [StartEv.startPolling] ∧
      StartEv.startPolling ∉ rest ∧
      (∀ s ∈ installedStages, StartEv.install s ∈ rest) ∧
      (∀ t ∈ startupStep1Tasks skip, ∀ e ∈ taskEvents script t, e ∈ rest) := by
  refine ⟨[.subscribeBridgeUpdate]
    ++ (startupStep1Tasks skip).flatMap (taskEvents script)
    ++ readyCallbackTrace, ?_, ?_, ?_, ?_⟩
  · simp [setupTrace, List.append_assoc]
  · intro hmem
    rcases List.mem_append.mp hmem with h1 | hrc
    · rcases List.mem_append.mp h1 with hs | hfm
      · simp at hs
      · rw [List.mem_flatMap] at hfm
        obtain ⟨t, _, he⟩ := hfm
        have := mem_taskEvents_isStep1 script t _ he
        simp [StartEv.isStep1] at this
    · revert hrc; decide
  · intro s hs
    have h1 : StartEv.install s ∈ readyCallbackTrace := by
      unfold readyCallbackTrace
      exact List.mem_append_left _
        (List.mem_append_right _ (List.mem_map_of_mem _ hs))
    exact List.mem_append_right _ h1
  · intro t ht e he
    exact List.mem_append_left _
      (List.mem_append_right _ (List.mem_flatMap_of_mem ht he))

/-- C4 witness: a concrete successful startup with draining enabled on a
one-batch backlog. -/
theorem polling_starts_after_drain_and_install_witness :
    StartEv.install Stage.relayMessage ∈
      ((setupTrace true true [[7]] []).take (setupTrace true true [[7]] []).length) := by
  obtain ⟨rest, heq, _, hinst, _⟩ :=
    polling_starts_after_drain_and_install true [[7]] []
  have h1 : StartEv.install Stage.relayMessage ∈ rest :=
    hinst Stage.relayMessage (by decide)
  rw [List.take_length, heq]
  exact List.mem_append_left _ h1

/-- C5: when the identity request fails, the rejection propagates through the
startup chain: every action in the trace belongs to step 1 — in particular no
command registration, no permission templates, no context assignment, no
pipeline-stage installation, and no polling ever happen, so no ready signal is
produced. -/
theorem identity_failure_fatal (skip : Bool) (script : List Batch)
    (f : List BotCommand) :
    (∀ e ∈ setupTrace skip false script f, e.isStep1 = true) ∧
    StartEv.startPolling ∉ setupTrace skip false script f ∧
    StartEv.assignContext ∉ setupTrace skip false script f ∧
    StartEv.setMyCommands myCommands ∉ setupTrace skip false script f ∧
    (∀ b : Bool, StartEv.setAdminRights b ∉ setupTrace skip false script f) ∧
    (∀ s : Stage, StartEv.install s ∉ setupTrace skip false script f) := by
  have main := mem_setupTrace_false_isStep1 skip script f
  refine ⟨main, ?_, ?_, ?_, ?_, ?_⟩
  · intro h
    have := main _ h
    simp [StartEv.isStep1] at this
  · intro h
    have := main _ h
    simp [StartEv.isStep1] at this
  · intro h
    have := main _ h
    simp [StartEv.isStep1] at this
  · intro b h
    have := main _ h
    simp [StartEv.isStep1] at this
  · intro s h
    have := main _ h
    simp [StartEv.isStep1] at this

/-- C5 witness: in a concrete failed startup (skip enabled, one-batch backlog),
the first trace element is a step-1 action. -/
theorem identity_failure_fatal_witness :
    StartEv.isStep1 StartEv.subscribeBridgeUpdate = true :=
  (identity_failure_fatal true [[4]] []).1 StartEv.subscribeBridgeUpdate
    (List.mem_cons_self _ _)

/-- C6: the bridgeUpdate handler is subscribed during setup, and on a
notification it replaces the bridge map of the assigned context by one wholesale
assignment: the resulting context carries exactly the new map and every other
field unchanged, so a resolution against the context sees the old map in full
before the swap and the new map in full after it. -/
theorem bridgeTable_swap_atomic {β γ : Type} (ctx : TediCrossCtx β γ) (newMap : β)
    (skip ok : Bool) (script : List Batch) (f : List BotCommand) :
    bridgeUpdateHandler (some ctx) newMap =
      Except.ok (some { ctx with bridgeMap := newMap }) ∧
    TediCrossCtx.mk ctx.me newMap ctx.handles ctx.antiInfoSpamSet ctx.groupIdMap
      = { ctx with bridgeMap := newMap } ∧
    StartEv.subscribeBridgeUpdate ∈ setupTrace skip ok script f := by
  refine ⟨rfl, rfl, ?_⟩
  exact List.mem_append_left _ (List.mem_append_left _ (List.mem_cons_self _ _))

/-- C7: the installed error handler routes every error to the logging
collaborator and never rethrows; under the dispatch contract this means every
event list is processed to the end — each event whose processing throws
contributes its error to the log, in order, and all subsequent events are still
processed. -/
theorem pipeline_errors_logged {α : Type} (handler : α → Except JsError Unit)
    (events : List α) :
    (∀ err, tgCatchHandler err = CatchAction.logError err) ∧
    (dispatchEvents handler tgCatchHandler events).1 = events.length ∧
    (dispatchEvents handler tgCatchHandler events).2 =
      events.filterMap (fun e =>
        match handler e with
        | .error err => some err
        | .ok _ => none) := by
  refine ⟨fun _ => rfl, ?_⟩
  induction events with
  | nil => exact ⟨rfl, rfl⟩
  | cons e rest ih =>
    cases h : handler e with
    | ok u =>
      cases u
      simp [dispatchEvents, h, List.filterMap_cons, ih.1, ih.2]
    | error err =>
      simp [dispatchEvents, h, tgCatchHandler, List.filterMap_cons, ih.1, ih.2]

/-- C9: startup step 1 is the single Promise.all task pair whose second member
is chosen by configuration — backlog draining when skipOldMessages is set, a
1000 ms sleep otherwise; with the sleep chosen, the whole startup trace contains
no backlog fetch at any offset. -/
theorem startup_step1_concurrent_choice (script : List Batch)
    (f : List BotCommand) :
    startupStep1Tasks true = [StartupTask.getMe, StartupTask.drainBacklog] ∧
    startupStep1Tasks false = [StartupTask.getMe, StartupTask.sleepDelay 1000] ∧
    taskEvents script StartupTask.drainBacklog =
      (drainCalls script defaultOffset).map StartEv.fetchUpdates ∧
    (∀ off : Int, StartEv.fetchUpdates off ∉ setupTrace false true script f) ∧
    StartEv.sleepMs 1000 ∈ setupTrace false true script f := by
  refine ⟨rfl, rfl, rfl, ?_, ?_⟩
  · intro off h
    revert h
    simp [setupTrace, startupStep1Tasks, taskEvents, readyCallbackTrace,
      installedStages, myCommands]
  · simp [setupTrace, startupStep1Tasks, taskEvents]

/-- C10: the bridgeUpdate subscription is installed synchronously as the very
first action of setup, while the context object it dereferences is assigned only
in the ready callback (never at all when identity fails); a notification
arriving while the context is still undefined makes the handler throw a
TypeError instead of swapping the table. -/
theorem bridgeUpdate_before_ready_throws {β γ : Type} (newMap : β)
    (skip : Bool) (script : List Batch) (f : List BotCommand) :
    bridgeUpdateHandler (none : Option (TediCrossCtx β γ)) newMap =
      Except.error (JsError.typeError "Cannot set properties of undefined") ∧
    (setupTrace skip true script f).head? = some StartEv.subscribeBridgeUpdate ∧
    (setupTrace skip true script f).indexOf StartEv.subscribeBridgeUpdate = 0 ∧
    StartEv.assignContext ∈ setupTrace skip true script f ∧
    0 < (setupTrace skip true script f).indexOf StartEv.assignContext ∧
    StartEv.assignContext ∉ setupTrace skip false script f := by
  have htr := setupTrace_true_cons skip script f
  refine ⟨rfl, ?_, ?_, ?_, ?_, ?_⟩
  · rw [htr]; rfl
  · rw [htr]
    exact List.indexOf_cons_self _ _
  · rw [htr]
    have h1 : StartEv.assignContext ∈ readyCallbackTrace := by decide
    exact List.mem_cons_of_mem _
      (List.mem_append_right _ (List.mem_append_left _ h1))
  · rw [htr]
    rw [List.indexOf_cons_ne _ (by decide)]
    exact Nat.succ_pos _
  · intro h
    have := mem_setupTrace_false_isStep1 skip script f _ h
    simp [StartEv.isStep1] at this

end TediCross
